import Mathlib

/-!
Verification of the Arducom framing, dispatch and retry engine against its
C++ sources (`src/master/ArducomMaster.cpp` and
`src/slave/lib/Arducom/Arducom.cpp`).  Machine bytes are modelled as `Nat`
with explicit `% 256` folds where the C code truncates; the C `int8_t` /
`int16_t` arithmetic that can go negative is modelled on `Int`.
-/

namespace Arducom

/-! ### Error and status codes (slave/lib/Arducom/Arducom.h, lines 33-62) -/

def ARDUCOM_OK : Nat := 0
def ARDUCOM_COMMAND_HANDLED : Nat := 1
def ARDUCOM_COMMAND_ALREADY_EXISTS : Nat := 2
def ARDUCOM_COMMANDCODE_INVALID : Nat := 3
def ARDUCOM_TIMEOUT_CODE : Nat := 4
def ARDUCOM_OVERFLOW : Nat := 6
def ARDUCOM_COMMAND_ERROR : Nat := 7
def ARDUCOM_NO_COMMAND : Nat := 9
def ARDUCOM_INVALID_REPLY : Nat := 10
def ARDUCOM_INVALID_RESPONSE : Nat := 11
def ARDUCOM_PAYLOAD_TOO_LONG : Nat := 12
def ARDUCOM_TRANSPORT_ERROR_CODE : Nat := 13
def ARDUCOM_NO_DATA : Nat := 128
def ARDUCOM_COMMAND_UNKNOWN : Nat := 129
def ARDUCOM_TOO_MUCH_DATA : Nat := 130
def ARDUCOM_PARAMETER_MISMATCH : Nat := 131
def ARDUCOM_BUFFER_OVERRUN : Nat := 132
def ARDUCOM_CHECKSUM_ERROR : Nat := 133
def ARDUCOM_LIMIT_EXCEEDED : Nat := 134
def ARDUCOM_FUNCTION_ERROR : Nat := 254
def ARDUCOM_ERROR_CODE : Nat := 255
def ARDUCOM_BUFFERSIZE : Nat := 32

/-! ### Checksum (master lines 92-106, slave lines 43-57; byte-identical) -/

/-- One accumulation step of the master checksum:
`sum += b; if (sum > 255) sum = (sum & 0xFF) + 1;`
(`ArducomMaster.cpp`, `calculateChecksum`). -/
def masterChecksumAdd (sum b : Nat) : Nat :=
  if sum + b > 255 then (sum + b) % 256 + 1 else sum + b

/-- `calculateChecksum` from `src/master/ArducomMaster.cpp` lines 92-106:
`sum = commandByte + code` with one carry fold, then each payload byte is
added with end-around carry; the result is `~(uint8_t)sum`, i.e. the bitwise
complement of the low byte. -/
def masterCalculateChecksum (commandByte code : Nat) (data : List Nat) : Nat :=
  255 - (List.foldl masterChecksumAdd (masterChecksumAdd commandByte code) data) % 256

/-- One accumulation step of the slave checksum:
`sum += data[i]; if (sum > 255) sum = (sum & 0xFF) + 1;`
(`Arducom.cpp`, `calculateChecksum`). -/
def slaveChecksumAdd (sum b : Nat) : Nat :=
  if sum + b > 255 then (sum + b) % 256 + 1 else sum + b

/-- `calculateChecksum` from `src/slave/lib/Arducom/Arducom.cpp` lines 43-57. -/
def slaveCalculateChecksum (commandByte code : Nat) (data : List Nat) : Nat :=
  255 - (List.foldl slaveChecksumAdd (slaveChecksumAdd commandByte code) data) % 256

/-- The checksum as the specification words it: a running 8-bit sum over the
bytes (command, code, payload...) with end-around carry (adding 1 whenever the
running sum exceeds 255), bitwise complemented. -/
def endAroundAdd (s b : Nat) : Nat :=
  if s + b > 255 then (s + b) % 256 + 1 else s + b

/-- Checksum of a byte list per the specification's algorithm description. -/
def endAroundCarryChecksum (bytes : List Nat) : Nat :=
  255 - (bytes.foldl endAroundAdd 0) % 256

/-! ### Master request frame construction (`ArducomMaster::send`, lines 680-706) -/

/-- The request frame built by `ArducomMaster::send`:
`data[0] = command; data[1] = size | (checksum ? 0x80 : 0);`
payload copied after the header, and, with the checksum flag,
`data[2] = calculateChecksum(data[0], data[1], &data[3], size)`. -/
def masterBuildFrame (command : Nat) (checksum : Bool) (buffer : List Nat) : List Nat :=
  let code := buffer.length ||| (if checksum then 128 else 0)
  [command, code]
    ++ (if checksum then [masterCalculateChecksum command code buffer] else [])
    ++ buffer

/-- The slave dispatcher's checksum verification (`Arducom::doWork`,
lines 284-285): recompute the checksum over the payload after the three
header bytes and compare it with the transmitted checksum byte `data[2]`. -/
def slaveChecksumVerify (frame : List Nat) : Bool :=
  slaveCalculateChecksum (frame.getD 0 0) (frame.getD 1 0) (frame.drop 3) == frame.getD 2 0

/-! ### C1 -/

lemma master_eq_slave_checksum (commandByte code : Nat) (data : List Nat) :
    masterCalculateChecksum commandByte code data
      = slaveCalculateChecksum commandByte code data := rfl

/-- C1: the master's and the slave's checksum functions compute the same
function: the 8-bit sum of (command, code, payload bytes) with end-around
carry, bitwise complemented; and the slave's checksum verification accepts
every frame built by the master with the checksum flag set. -/
theorem C1_checksum_agreement (commandByte code : Nat) (data : List Nat)
    (hcmd : commandByte ≤ 255) (hcode : code ≤ 255)
    (hbytes : ∀ b ∈ data, b ≤ 255) (hlen : data.length ≤ 63) :
    masterCalculateChecksum commandByte code data
        = slaveCalculateChecksum commandByte code data
    ∧ masterCalculateChecksum commandByte code data
        = endAroundCarryChecksum (commandByte :: code :: data)
    ∧ slaveChecksumVerify (masterBuildFrame commandByte true data) = true := by
  refine ⟨rfl, ?_, ?_⟩
  · have hstep : endAroundAdd = masterChecksumAdd := rfl
    have h0 : masterChecksumAdd 0 commandByte = commandByte := by
      unfold masterChecksumAdd
      rw [if_neg (by omega)]
      omega
    simp only [endAroundCarryChecksum, List.foldl_cons, hstep, h0,
      masterCalculateChecksum]
  · simp only [slaveChecksumVerify, masterBuildFrame, if_pos, List.cons_append,
      List.nil_append, List.getD_cons_zero, List.getD_cons_succ, List.drop_succ_cons,
      List.drop_zero]
    rw [← master_eq_slave_checksum]
    exact beq_self_eq_true _

/-- Witness for C1 at a concrete input: command 3, code byte implied by a
3-byte payload, matching the spec's EEPROM-write scenario. -/
theorem C1_checksum_agreement_witness :
    masterCalculateChecksum 3 131 [5, 0, 42]
        = slaveCalculateChecksum 3 131 [5, 0, 42]
    ∧ masterCalculateChecksum 3 131 [5, 0, 42]
        = endAroundCarryChecksum (3 :: 131 :: [5, 0, 42])
    ∧ slaveChecksumVerify (masterBuildFrame 3 true [5, 0, 42]) = true :=
  C1_checksum_agreement 3 131 [5, 0, 42] (by decide) (by decide)
    (by decide) (by decide)

/-! ### Bit-manipulation facts for byte values -/

lemma lor128_of_le_126 (c : Nat) (h : c ≤ 126) : c ||| 128 = c + 128 := by
  have : ∀ x : Fin 127, x.val ||| 128 = x.val + 128 := by decide
  exact this ⟨c, by omega⟩

lemma lor128_of_le_63 (L : Nat) (h : L ≤ 63) : L ||| 128 = L + 128 := by
  exact lor128_of_le_126 L (by omega)

lemma and63_of_le_63 (L : Nat) (h : L ≤ 63) : L &&& 63 = L := by
  have : ∀ x : Fin 64, x.val &&& 63 = x.val := by decide
  exact this ⟨L, by omega⟩

lemma add128_and63 (L : Nat) (h : L ≤ 63) : (L + 128) &&& 63 = L := by
  have : ∀ x : Fin 64, (x.val + 128) &&& 63 = x.val := by decide
  exact this ⟨L, by omega⟩

lemma shift7_of_le_63 (L : Nat) (h : L ≤ 63) : L >>> 7 = 0 := by
  have : ∀ x : Fin 64, x.val >>> 7 = 0 := by decide
  exact this ⟨L, by omega⟩

lemma add128_shift7 (L : Nat) (h : L ≤ 63) : (L + 128) >>> 7 = 1 := by
  have : ∀ x : Fin 64, (x.val + 128) >>> 7 = 1 := by decide
  exact this ⟨L, by omega⟩

/-! ### The slave command registry (`Arducom::addCommand`, lines 203-216) -/

/-- A registered command: a command code, an expected payload length
(`-1` means variable), and the `handle` method.  The handler maps the
received payload to `(result code, errorInfo, reply payload)`, mirroring the
`int8_t handle(..., dataBuffer, dataSize, destBuffer, maxBufferSize,
errorInfo)` signature with the in/out pointers made explicit. -/
structure ArducomCommandEntry where
  commandCode : Nat
  expectedBytes : Int
  handler : List Nat → Nat × Nat × List Nat

/-- `Arducom::addCommand` (lines 203-216): reject codes above 126, reject a
code already present in the linked list, otherwise push the entry at the
front of the list. -/
def addCommand (list : List ArducomCommandEntry) (cmd : ArducomCommandEntry) :
    Nat × List ArducomCommandEntry :=
  if cmd.commandCode > 126 then
    (ARDUCOM_COMMANDCODE_INVALID, list)
  else if list.any (fun command => command.commandCode == cmd.commandCode) then
    (ARDUCOM_COMMAND_ALREADY_EXISTS, list)
  else
    (ARDUCOM_OK, cmd :: list)

/-! ### C7 -/

/-- C7: `addCommand` returns `COMMANDCODE_INVALID` for codes above 126 and
`COMMAND_ALREADY_EXISTS` for duplicate codes, leaving the registry unchanged
in both cases; otherwise it returns `OK` and adds the entry; and it preserves
the invariant that no two registry entries share a command code. -/
theorem C7_addCommand_registry (list : List ArducomCommandEntry)
    (cmd : ArducomCommandEntry) :
    (cmd.commandCode > 126 →
      addCommand list cmd = (ARDUCOM_COMMANDCODE_INVALID, list))
    ∧ (cmd.commandCode ≤ 126 → (∃ e ∈ list, e.commandCode = cmd.commandCode) →
      addCommand list cmd = (ARDUCOM_COMMAND_ALREADY_EXISTS, list))
    ∧ (cmd.commandCode ≤ 126 → (∀ e ∈ list, e.commandCode ≠ cmd.commandCode) →
      addCommand list cmd = (ARDUCOM_OK, cmd :: list))
    ∧ ((list.map ArducomCommandEntry.commandCode).Nodup →
      ((addCommand list cmd).2.map ArducomCommandEntry.commandCode).Nodup) := by
  refine ⟨?_, ?_, ?_, ?_⟩
  · intro h
    simp only [addCommand, if_pos h]
  · rintro h ⟨e, he, hcode⟩
    have hdup : list.any (fun command => command.commandCode == cmd.commandCode) = true :=
      List.any_eq_true.mpr ⟨e, he, beq_iff_eq.mpr hcode⟩
    unfold addCommand
    rw [if_neg (by omega : ¬ cmd.commandCode > 126), if_pos hdup]
  · intro h hnone
    have hdup : ¬ (list.any (fun command => command.commandCode == cmd.commandCode) = true) := by
      rw [List.any_eq_true]
      rintro ⟨e, he, hc⟩
      exact hnone e he (beq_iff_eq.mp hc)
    unfold addCommand
    rw [if_neg (by omega : ¬ cmd.commandCode > 126), if_neg hdup]
  · intro hnodup
    unfold addCommand
    by_cases h1 : cmd.commandCode > 126
    · simpa [h1] using hnodup
    · by_cases h2 : list.any (fun command => command.commandCode == cmd.commandCode) = true
      · simpa [h1, h2] using hnodup
      · have hnotmem : cmd.commandCode ∉ list.map ArducomCommandEntry.commandCode := by
          intro hmem
          rcases List.mem_map.mp hmem with ⟨e, he, hc⟩
          exact h2 (List.any_eq_true.mpr ⟨e, he, beq_iff_eq.mpr hc⟩)
        rw [if_neg h1, if_neg h2]
        simp only [List.map_cons, List.nodup_cons]
        exact ⟨hnotmem, hnodup⟩

/-- A concrete registered entry used by witnesses: code 5, variable length,
no-op handler. -/
def sampleEntryA : ArducomCommandEntry :=
  ⟨5, -1, fun _ => (ARDUCOM_OK, 0, [])⟩

/-- A concrete entry used by witnesses: code 7, fixed expected length 2,
no-op handler. -/
def sampleEntryB : ArducomCommandEntry :=
  ⟨7, 2, fun _ => (ARDUCOM_OK, 0, [])⟩

/-- Witness for C7: registering code 7 into a registry holding only code 5
succeeds and keeps the codes duplicate-free. -/
theorem C7_addCommand_registry_witness :
    addCommand [sampleEntryA] sampleEntryB = (ARDUCOM_OK, [sampleEntryB, sampleEntryA])
    ∧ (([sampleEntryB, sampleEntryA].map ArducomCommandEntry.commandCode).Nodup) := by
  have h := C7_addCommand_registry [sampleEntryA] sampleEntryB
  refine ⟨h.2.2.1 (by decide) ?_, ?_⟩
  · intro e he
    simp only [List.mem_singleton] at he
    subst he
    decide
  · have h4 := h.2.2.2 (by decide)
    have h3 := h.2.2.1 (by decide) (by
      intro e he
      simp only [List.mem_singleton] at he
      subst he
      decide)
    rw [h3] at h4
    exact h4

/-! ### The slave transport state and dispatcher (`Arducom::doWork`, lines 218-367) -/

/-- `ArducomTransport::Status` (Arducom.h lines 103-114). -/
inductive TransportStatus where
  | NO_DATA
  | TOO_MUCH_DATA
  | HAS_DATA
  | READY_TO_SEND
  | SENT
deriving DecidableEq, Repr

/-- The transport's receive state: its status and the valid bytes
`data[0..size)` of its buffer. -/
structure TransportState where
  status : TransportStatus
  data : List Nat
deriving DecidableEq, Repr

/-- `ArducomTransport::hasData` (Arducom.cpp lines 68-72): the number of valid
bytes if the status is `HAS_DATA`, else `-1`. -/
def hasData (st : TransportState) : Int :=
  if st.status = TransportStatus.HAS_DATA then (st.data.length : Int) else -1

/-- The command-matching loop of `Arducom::doWork` (lines 262-315): walk the
registry, assigning `errorInfo = commandByte` on each iteration; on a code
match check the expected payload length, then (if flagged) the checksum, then
run the handler.  Returns `(result, errorInfo, reply payload, matched code)`. -/
def commandLoop (registry : List ArducomCommandEntry) (commandByte code : Nat)
    (checksum : Bool) (checkByte : Nat) (payload : List Nat)
    (result errorInfo : Nat) : Nat × Nat × List Nat × Option Nat :=
  match registry with
  | [] => (result, errorInfo, [], none)
  | command :: rest =>
    if command.commandCode = commandByte then
      if 0 ≤ command.expectedBytes ∧ (payload.length : Int) ≠ command.expectedBytes then
        (ARDUCOM_PARAMETER_MISMATCH, command.expectedBytes.toNat % 256, [],
          some command.commandCode)
      else if checksum = true
          ∧ slaveCalculateChecksum commandByte code payload ≠ checkByte then
        (ARDUCOM_CHECKSUM_ERROR, slaveCalculateChecksum commandByte code payload, [],
          some command.commandCode)
      else
        let h := command.handler payload
        (h.1, h.2.1, h.2.2, some command.commandCode)
    else
      commandLoop rest commandByte code checksum checkByte payload result commandByte

/-- The observable outcome of one `Arducom::doWork` poll: its return code, the
transport state afterwards, the updated `lastDataSize` cache, and the frame
handed to `transport->send`, if any. -/
structure PollResult where
  ret : Nat
  transport : TransportState
  lastDataSize : Int
  emitted : Option (List Nat)
deriving DecidableEq, Repr

/-- Reply emission of `Arducom::doWork` (lines 319-352) after the command loop:
a three-byte error frame `FF result errorInfo` when the result is not `OK`,
otherwise the success frame `code|0x80`, `length | (checksum ? 0x80 : 0)`,
optional checksum, reply payload.  A send is modelled as the transport moving
to `SENT` with an emptied buffer, as `ArducomTransportStream::send` does. -/
def dispatchFinish (registry : List ArducomCommandEntry) (commandByte code : Nat)
    (checksum : Bool) (checkByte : Nat) (payload : List Nat) : PollResult :=
  let lres := commandLoop registry commandByte code checksum checkByte payload
    ARDUCOM_COMMAND_UNKNOWN 0
  if lres.1 ≠ ARDUCOM_OK then
    ⟨ARDUCOM_COMMAND_ERROR, ⟨TransportStatus.SENT, []⟩, -1,
      some [ARDUCOM_ERROR_CODE, lres.1, lres.2.1]⟩
  else
    let reply := lres.2.2.1
    let b0 := lres.2.2.2.getD 0 ||| 128
    let b1 := (reply.length &&& 63) ||| (if checksum then 128 else 0)
    ⟨ARDUCOM_COMMAND_HANDLED, ⟨TransportStatus.SENT, []⟩, -1,
      some ([b0, b1]
        ++ (if checksum then [slaveCalculateChecksum b0 b1 reply] else [])
        ++ reply)⟩

/-- `Arducom::doWork` (lines 218-367) after the transport has ingested its
bytes: check for new data of at least two bytes, parse the code byte for the
payload length and the checksum flag, wait for missing bytes, and otherwise
dispatch.  Command housekeeping, debug output and the `millis()`-based receive
timeout (which needs the configured timeout to elapse first) are outside the
model. -/
def arducomDoWorkCore (registry : List ArducomCommandEntry) (lastDataSize : Int)
    (st : TransportState) : PollResult :=
  let dataSize := hasData st
  if dataSize ≠ lastDataSize ∧ dataSize > 1 then
    let commandByte := st.data.getD 0 0
    let code := st.data.getD 1 0
    if dataSize - 2 < ((code &&& 63 : Nat) : Int) then
      ⟨ARDUCOM_OK, st, dataSize, none⟩
    else
      let checksum : Bool := code >>> 7 != 0
      if checksum = true ∧ dataSize - 3 < ((code &&& 63 : Nat) : Int) then
        ⟨ARDUCOM_OK, st, dataSize, none⟩
      else
        dispatchFinish registry commandByte code checksum (st.data.getD 2 0)
          (st.data.drop (if checksum then 3 else 2))
  else
    ⟨ARDUCOM_OK, st, lastDataSize, none⟩

/-- A correctly framed request for command `c` with checksum flag `ck`,
checksum byte `cb` (present only when flagged), and the given payload. -/
def requestFrame (c : Nat) (ck : Bool) (cb : Nat) (payload : List Nat) : List Nat :=
  [c, payload.length ||| (if ck then 128 else 0)]
    ++ (if ck then [cb] else []) ++ payload

lemma dispatch_frame_with_ck (registry : List ArducomCommandEntry) (last : Int)
    (c cb : Nat) (payload : List Nat) (hL : payload.length ≤ 63)
    (hlast : last ≠ (payload.length : Int) + 3) :
    arducomDoWorkCore registry last
        ⟨TransportStatus.HAS_DATA, requestFrame c true cb payload⟩
      = dispatchFinish registry c (payload.length + 128) true cb payload := by
  have hframe : requestFrame c true cb payload
      = c :: (payload.length + 128) :: cb :: payload := by
    simp [requestFrame, lor128_of_le_63 _ hL]
  have hand : (payload.length + 128) &&& 63 = payload.length := add128_and63 _ hL
  have hshift : (payload.length + 128) >>> 7 = 1 := add128_shift7 _ hL
  have hone : ((1 : Nat) != 0) = true := rfl
  rw [hframe]
  simp only [arducomDoWorkCore, hasData, List.getD_cons_zero, List.getD_cons_succ,
    List.length_cons, hand, hshift, hone, List.drop_succ_cons, List.drop_zero,
    if_true, reduceIte]
  rw [if_pos (by refine ⟨?_, ?_⟩ <;> push_cast <;> omega),
    if_neg (by push_cast; omega), if_neg (by push_cast; omega)]

lemma dispatch_frame_no_ck (registry : List ArducomCommandEntry) (last : Int)
    (c cb : Nat) (payload : List Nat) (hL : payload.length ≤ 63)
    (hlast : last ≠ (payload.length : Int) + 2) :
    arducomDoWorkCore registry last
        ⟨TransportStatus.HAS_DATA, requestFrame c false cb payload⟩
      = dispatchFinish registry c payload.length false (payload.getD 0 0) payload := by
  have hframe : requestFrame c false cb payload = c :: payload.length :: payload := by
    simp [requestFrame, Nat.or_zero]
  have hshift : payload.length >>> 7 = 0 := shift7_of_le_63 _ hL
  have hand : payload.length &&& 63 = payload.length := and63_of_le_63 _ hL
  have hzero : ((0 : Nat) != 0) = false := rfl
  rw [hframe]
  simp only [arducomDoWorkCore, hasData, List.getD_cons_zero, List.getD_cons_succ,
    List.length_cons, hand, hshift, hzero, List.drop_succ_cons, List.drop_zero,
    if_false, reduceIte]
  rw [if_pos (by refine ⟨?_, ?_⟩ <;> push_cast <;> omega),
    if_neg (by push_cast; omega),
    if_neg (by simp)]
  simp

lemma commandLoop_skip (pre rest : List ArducomCommandEntry) (c code : Nat)
    (ck : Bool) (cb : Nat) (payload : List Nat)
    (hpre : ∀ e ∈ pre, e.commandCode ≠ c) (r i : Nat) :
    ∃ j, commandLoop (pre ++ rest) c code ck cb payload r i
      = commandLoop rest c code ck cb payload r j := by
  induction pre generalizing i with
  | nil => exact ⟨i, rfl⟩
  | cons e pre ih =>
    have hne : e.commandCode ≠ c := hpre e (List.mem_cons_self e pre)
    rw [List.cons_append]
    simp only [commandLoop, if_neg hne]
    exact ih (fun x hx => hpre x (List.mem_cons_of_mem _ hx)) c

lemma commandLoop_no_match (registry : List ArducomCommandEntry)
    (hne : registry ≠ []) (c code : Nat) (ck : Bool) (cb : Nat)
    (payload : List Nat) (hnot : ∀ e ∈ registry, e.commandCode ≠ c) (r i : Nat) :
    commandLoop registry c code ck cb payload r i = (r, c, [], none) := by
  induction registry generalizing i with
  | nil => exact absurd rfl hne
  | cons e rest ih =>
    have hne2 : e.commandCode ≠ c := hnot e (List.mem_cons_self e rest)
    simp only [commandLoop, if_neg hne2]
    rcases rest with _ | ⟨f, rest⟩
    · rfl
    · exact ih (by simp) (fun x hx => hnot x (List.mem_cons_of_mem _ hx)) c

lemma commandLoop_match (e : ArducomCommandEntry) (tail : List ArducomCommandEntry)
    (c code : Nat) (ck : Bool) (cb : Nat) (payload : List Nat)
    (he : e.commandCode = c) (r i : Nat) :
    commandLoop (e :: tail) c code ck cb payload r i
      = (if 0 ≤ e.expectedBytes ∧ (payload.length : Int) ≠ e.expectedBytes then
          (ARDUCOM_PARAMETER_MISMATCH, e.expectedBytes.toNat % 256, [],
            some e.commandCode)
        else if ck = true ∧ slaveCalculateChecksum c code payload ≠ cb then
          (ARDUCOM_CHECKSUM_ERROR, slaveCalculateChecksum c code payload, [],
            some e.commandCode)
        else ((e.handler payload).1, (e.handler payload).2.1,
          (e.handler payload).2.2, some e.commandCode)) := by
  simp only [commandLoop, if_pos he]

/-! ### C2 -/

/-- C2 (amended): for every command code in `[0,126]`, payload of at most 63
bytes, and checksum flag: feeding the dispatcher a correctly framed request
for a registered no-op command yields a no-payload success reply of **two**
bytes without checksum and **three** with checksum, whose first byte is
`command | 0x80` and whose code byte has payload length 0 in the low six bits
and bit 7 equal to the request's checksum flag. -/
theorem C2_noop_success_reply (cmd : Nat) (hcmd : cmd ≤ 126) (payload : List Nat)
    (hL : payload.length ≤ 63) (ck : Bool) (E : Int)
    (hE : E = -1 ∨ E = (payload.length : Int))
    (handler : List Nat → Nat × Nat × List Nat) (einfo : Nat)
    (hh : handler payload = (ARDUCOM_OK, einfo, [])) :
    arducomDoWorkCore [⟨cmd, E, handler⟩] (-1)
        ⟨TransportStatus.HAS_DATA, masterBuildFrame cmd ck payload⟩
      = ⟨ARDUCOM_COMMAND_HANDLED, ⟨TransportStatus.SENT, []⟩, -1,
          some ([cmd ||| 128, if ck then 128 else 0]
            ++ (if ck then [slaveCalculateChecksum (cmd ||| 128) 128 []] else []))⟩
    ∧ (if ck then 128 else 0) &&& 63 = 0
    ∧ ((if ck then 128 else 0) >>> 7 = if ck then 1 else 0)
    ∧ ([cmd ||| 128, if ck then 128 else 0]
        ++ (if ck then [slaveCalculateChecksum (cmd ||| 128) 128 []] else [])).length
      = if ck then 3 else 2 := by
  have hEcond : ¬ (0 ≤ E ∧ (payload.length : Int) ≠ E) := by
    rcases hE with hE | hE <;> subst hE <;> simp
  cases ck
  case false =>
    have hbuild : masterBuildFrame cmd false payload
        = requestFrame cmd false 0 payload := by
      simp [masterBuildFrame, requestFrame]
    rw [hbuild, dispatch_frame_no_ck _ _ _ _ _ hL (by omega)]
    unfold dispatchFinish
    rw [commandLoop_match _ _ _ _ _ _ _ rfl]
    refine ⟨?_, by decide, by simp, by simp⟩
    simp [hEcond, hh, ARDUCOM_OK, Nat.zero_or]
  case true =>
    have hbuild : masterBuildFrame cmd true payload
        = requestFrame cmd true
            (masterCalculateChecksum cmd (payload.length + 128) payload) payload := by
      simp [masterBuildFrame, requestFrame, lor128_of_le_63 _ hL]
    rw [hbuild, dispatch_frame_with_ck _ _ _ _ _ hL (by omega)]
    unfold dispatchFinish
    rw [commandLoop_match _ _ _ _ _ _ _ rfl]
    refine ⟨?_, by decide, by decide, by simp⟩
    simp [hEcond, hh, ARDUCOM_OK, Nat.zero_or, master_eq_slave_checksum]

/-- C2 counterexample: the claim's "three-byte success reply" fails when the
checksum flag is clear; command 0 with empty payload and no checksum is
answered with the two-byte reply `80 00`. -/
theorem C2_noop_success_reply_counterexample :
    (arducomDoWorkCore [⟨0, -1, fun _ => (ARDUCOM_OK, 0, [])⟩] (-1)
        ⟨TransportStatus.HAS_DATA, masterBuildFrame 0 false []⟩).emitted
      = some [128, 0]
    ∧ ((arducomDoWorkCore [⟨0, -1, fun _ => (ARDUCOM_OK, 0, [])⟩] (-1)
        ⟨TransportStatus.HAS_DATA, masterBuildFrame 0 false []⟩).emitted.getD []).length
      ≠ 3 := by
  exact ⟨rfl, by decide⟩

/-- Witness for C2 at a concrete input: command 1, empty payload, checksum
flag set, variable expected length, a literal no-op handler. -/
theorem C2_noop_success_reply_witness :
    arducomDoWorkCore [⟨1, -1, fun _ => (ARDUCOM_OK, 0, [])⟩] (-1)
        ⟨TransportStatus.HAS_DATA, masterBuildFrame 1 true []⟩
      = ⟨ARDUCOM_COMMAND_HANDLED, ⟨TransportStatus.SENT, []⟩, -1,
          some ([1 ||| 128, if true then 128 else 0]
            ++ (if true then [slaveCalculateChecksum (1 ||| 128) 128 []] else []))⟩ :=
  (C2_noop_success_reply 1 (by decide) [] (by decide) true (-1) (Or.inl rfl)
    (fun _ => (ARDUCOM_OK, 0, [])) 0 rfl).1

/-! ### C4 -/

/-- C4 (amended): for every completely received request frame whose command
byte is not registered, a poll of a slave with a **non-empty** registry emits
exactly the three-byte error frame `0xFF, 129 (COMMAND_UNKNOWN), requested
command code`, with no checksum byte appended, regardless of the request's
checksum flag.  (With an empty registry the info byte is 0 instead.) -/
theorem C4_unknown_command (registry : List ArducomCommandEntry)
    (hne : registry ≠ []) (c : Nat)
    (hnot : ∀ e ∈ registry, e.commandCode ≠ c)
    (ck : Bool) (cb : Nat) (payload : List Nat) (hL : payload.length ≤ 63) :
    arducomDoWorkCore registry (-1)
        ⟨TransportStatus.HAS_DATA, requestFrame c ck cb payload⟩
      = ⟨ARDUCOM_COMMAND_ERROR, ⟨TransportStatus.SENT, []⟩, -1,
          some [ARDUCOM_ERROR_CODE, ARDUCOM_COMMAND_UNKNOWN, c]⟩ := by
  cases ck
  case false =>
    rw [dispatch_frame_no_ck _ _ _ _ _ hL (by omega)]
    unfold dispatchFinish
    rw [commandLoop_no_match _ hne _ _ _ _ _ hnot]
    rfl
  case true =>
    rw [dispatch_frame_with_ck _ _ _ _ _ hL (by omega)]
    unfold dispatchFinish
    rw [commandLoop_no_match _ hne _ _ _ _ _ hnot]
    rfl

/-- C4 counterexample: the claim as stated fails on the empty registry, where
command byte 99 is not registered either; the emitted error frame carries
info byte 0, not the requested command code 99. -/
theorem C4_unknown_command_counterexample :
    (arducomDoWorkCore [] (-1) ⟨TransportStatus.HAS_DATA, [99, 0]⟩).emitted
      = some [ARDUCOM_ERROR_CODE, ARDUCOM_COMMAND_UNKNOWN, 0]
    ∧ (arducomDoWorkCore [] (-1) ⟨TransportStatus.HAS_DATA, [99, 0]⟩).emitted
      ≠ some [ARDUCOM_ERROR_CODE, ARDUCOM_COMMAND_UNKNOWN, 99] := by
  exact ⟨rfl, by decide⟩

/-- Witness for C4: the spec's scenario C — a slave knowing only command 5 is
sent `63 00` and answers exactly `FF 81 63`. -/
theorem C4_unknown_command_witness :
    arducomDoWorkCore [sampleEntryA] (-1)
        ⟨TransportStatus.HAS_DATA, requestFrame 99 false 0 []⟩
      = ⟨ARDUCOM_COMMAND_ERROR, ⟨TransportStatus.SENT, []⟩, -1,
          some [ARDUCOM_ERROR_CODE, ARDUCOM_COMMAND_UNKNOWN, 99]⟩ :=
  C4_unknown_command [sampleEntryA] (List.cons_ne_nil _ _) 99
    (by
      intro e he
      rw [List.mem_singleton] at he
      subst he
      decide)
    false 0 [] (by decide)

/-! ### C9 -/

/-- C9: with an empty command registry, every complete request frame is
answered by the error frame `0xFF, 129 (COMMAND_UNKNOWN)` whose info byte is
0 rather than the requested command code, because the info byte is assigned
only while traversing a non-empty registry list. -/
theorem C9_empty_registry_info_zero (c : Nat) (ck : Bool) (cb : Nat)
    (payload : List Nat) (hL : payload.length ≤ 63) :
    arducomDoWorkCore [] (-1)
        ⟨TransportStatus.HAS_DATA, requestFrame c ck cb payload⟩
      = ⟨ARDUCOM_COMMAND_ERROR, ⟨TransportStatus.SENT, []⟩, -1,
          some [ARDUCOM_ERROR_CODE, ARDUCOM_COMMAND_UNKNOWN, 0]⟩ := by
  cases ck
  case false =>
    rw [dispatch_frame_no_ck _ _ _ _ _ hL (by omega)]
    rfl
  case true =>
    rw [dispatch_frame_with_ck _ _ _ _ _ hL (by omega)]
    rfl

/-- Witness for C9: an empty-registry slave sent `63 00` answers `FF 81 00`. -/
theorem C9_empty_registry_info_zero_witness :
    arducomDoWorkCore [] (-1)
        ⟨TransportStatus.HAS_DATA, requestFrame 99 false 0 []⟩
      = ⟨ARDUCOM_COMMAND_ERROR, ⟨TransportStatus.SENT, []⟩, -1,
          some [ARDUCOM_ERROR_CODE, ARDUCOM_COMMAND_UNKNOWN, 0]⟩ :=
  C9_empty_registry_info_zero 99 false 0 [] (by decide)

/-! ### C5 -/

/-- C5: for every command registered with a fixed expected payload length
`E ≥ 0`, a complete request frame whose payload length differs from `E` makes
the poll emit the three-byte error frame `0xFF, 131 (PARAMETER_MISMATCH), E`
without invoking the handler (the result holds for every handler), and before
checksum verification (the result holds for every transmitted checksum byte
and both checksum flags). -/
theorem C5_parameter_mismatch (pre post : List ArducomCommandEntry)
    (c : Nat) (E : Int) (hE0 : 0 ≤ E) (hE127 : E ≤ 127)
    (handler : List Nat → Nat × Nat × List Nat)
    (hpre : ∀ e ∈ pre, e.commandCode ≠ c)
    (ck : Bool) (cb : Nat) (payload : List Nat) (hL : payload.length ≤ 63)
    (hLE : (payload.length : Int) ≠ E) :
    arducomDoWorkCore (pre ++ ⟨c, E, handler⟩ :: post) (-1)
        ⟨TransportStatus.HAS_DATA, requestFrame c ck cb payload⟩
      = ⟨ARDUCOM_COMMAND_ERROR, ⟨TransportStatus.SENT, []⟩, -1,
          some [ARDUCOM_ERROR_CODE, ARDUCOM_PARAMETER_MISMATCH, E.toNat]⟩ := by
  have hmod : E.toNat % 256 = E.toNat := Nat.mod_eq_of_lt (by omega)
  cases ck
  case false =>
    rw [dispatch_frame_no_ck _ _ _ _ _ hL (by omega)]
    unfold dispatchFinish
    obtain ⟨j, hj⟩ := commandLoop_skip pre (⟨c, E, handler⟩ :: post) c payload.length
      false (payload.getD 0 0) payload hpre ARDUCOM_COMMAND_UNKNOWN 0
    rw [hj, commandLoop_match _ _ _ _ _ _ _ rfl]
    simp [hE0, hLE, hmod, ARDUCOM_PARAMETER_MISMATCH, ARDUCOM_OK]
  case true =>
    rw [dispatch_frame_with_ck _ _ _ _ _ hL (by omega)]
    unfold dispatchFinish
    obtain ⟨j, hj⟩ := commandLoop_skip pre (⟨c, E, handler⟩ :: post) c
      (payload.length + 128) true cb payload hpre ARDUCOM_COMMAND_UNKNOWN 0
    rw [hj, commandLoop_match _ _ _ _ _ _ _ rfl]
    simp [hE0, hLE, hmod, ARDUCOM_PARAMETER_MISMATCH, ARDUCOM_OK]

/-- Witness for C5: the spec's scenario D — command 7 registered for exactly
2 bytes, master sends `07 01 AA`; the slave replies `FF 83 02`. -/
theorem C5_parameter_mismatch_witness :
    arducomDoWorkCore [sampleEntryB] (-1)
        ⟨TransportStatus.HAS_DATA, requestFrame 7 false 0 [170]⟩
      = ⟨ARDUCOM_COMMAND_ERROR, ⟨TransportStatus.SENT, []⟩, -1,
          some [ARDUCOM_ERROR_CODE, ARDUCOM_PARAMETER_MISMATCH, 2]⟩ :=
  C5_parameter_mismatch [] [] 7 2 (by decide) (by decide)
    (fun _ => (ARDUCOM_OK, 0, [])) (by intro e he; cases he) false 0 [170]
    (by decide) (by decide)

/-! ### C6 -/

lemma hasData_has (data : List Nat) :
    hasData ⟨TransportStatus.HAS_DATA, data⟩ = (data.length : Int) := rfl

/-- Completeness of a buffered request per the dispatcher's checks
(`Arducom::doWork` lines 236-256 and `Arducom::isCommandComplete`): at least
two bytes, and in total at least `2 + (checksum flag ? 1 : 0) + payload
length` bytes, with the payload length (low six bits) and the checksum flag
(bit 7) taken from the second byte. -/
def frameComplete (data : List Nat) : Prop :=
  2 ≤ data.length ∧
    ((data.getD 1 0 &&& 63 : Nat) : Int)
        + (if data.getD 1 0 >>> 7 ≠ 0 then 3 else 2)
      ≤ (data.length : Int)

lemma dispatchFinish_emits (registry : List ArducomCommandEntry)
    (c code : Nat) (ck : Bool) (cb : Nat) (payload : List Nat) :
    (dispatchFinish registry c code ck cb payload).emitted.isSome = true := by
  by_cases h : (commandLoop registry c code ck cb payload
      ARDUCOM_COMMAND_UNKNOWN 0).1 = ARDUCOM_OK
  · simp [dispatchFinish, h]
  · simp [dispatchFinish, h]

instance frameCompleteDecidable (data : List Nat) : Decidable (frameComplete data) := by
  unfold frameComplete
  infer_instance

/-- C6: a poll on a buffered prefix holding fewer than
`2 + (checksum flag ? 1 : 0) + payload length` bytes emits no reply, invokes
no handler (the outcome is the same for every registry) and leaves the
receive buffer unchanged; and once the buffer holds at least that many new
bytes, a reply frame is dispatched. -/
theorem C6_incomplete_frame_waits (registry : List ArducomCommandEntry)
    (last : Int) (data : List Nat) :
    (¬ frameComplete data →
      arducomDoWorkCore registry last ⟨TransportStatus.HAS_DATA, data⟩
        = ⟨ARDUCOM_OK, ⟨TransportStatus.HAS_DATA, data⟩,
            (if (data.length : Int) ≠ last ∧ (data.length : Int) > 1
              then (data.length : Int) else last), none⟩)
    ∧ (frameComplete data → (data.length : Int) ≠ last →
      (arducomDoWorkCore registry last
          ⟨TransportStatus.HAS_DATA, data⟩).emitted.isSome = true) := by
  constructor
  · intro hinc
    rw [frameComplete] at hinc
    push_neg at hinc
    simp only [arducomDoWorkCore, hasData_has]
    by_cases hcond : ((data.length : Int) ≠ last ∧ (data.length : Int) > 1)
    case neg =>
      rw [if_neg hcond, if_neg hcond]
    case pos =>
      have hlen2 : 2 ≤ data.length := by
        have := hcond.2
        omega
      have hmain := hinc hlen2
      rw [if_pos hcond]
      by_cases h7 : data.getD 1 0 >>> 7 = 0
      · rw [if_neg (not_not_intro h7)] at hmain
        rw [if_pos (by omega : (data.length : Int) - 2
          < ((data.getD 1 0 &&& 63 : Nat) : Int))]
        rw [if_pos hcond]
      · rw [if_pos h7] at hmain
        have hb : (data.getD 1 0 >>> 7 != 0) = true := by
          simpa using h7
        by_cases hfirst : ((data.length : Int) - 2
            < ((data.getD 1 0 &&& 63 : Nat) : Int))
        · rw [if_pos hfirst, if_pos hcond]
        · rw [if_neg hfirst, if_pos ⟨hb, by omega⟩, if_pos hcond]
  · intro hcomp hne
    have hlen2 := hcomp.1
    have hmain := hcomp.2
    simp only [arducomDoWorkCore, hasData_has]
    rw [if_pos ⟨hne, by exact_mod_cast (by omega : (1 : Int) < (data.length : Int))⟩]
    by_cases h7 : data.getD 1 0 >>> 7 = 0
    · rw [if_neg (not_not_intro h7)] at hmain
      have hb : (data.getD 1 0 >>> 7 != 0) = false := by
        simpa using h7
      rw [if_neg (by omega : ¬ ((data.length : Int) - 2
        < ((data.getD 1 0 &&& 63 : Nat) : Int)))]
      rw [if_neg (by
        rintro ⟨hck, -⟩
        rw [hb] at hck
        exact Bool.false_ne_true hck)]
      exact dispatchFinish_emits _ _ _ _ _ _
    · rw [if_pos h7] at hmain
      rw [if_neg (by omega : ¬ ((data.length : Int) - 2
        < ((data.getD 1 0 &&& 63 : Nat) : Int)))]
      rw [if_neg (by
        rintro ⟨-, hx⟩
        omega)]
      exact dispatchFinish_emits _ _ _ _ _ _

/-- Witness for C6: three buffered bytes `05 83 07` announce a 3-byte payload
with checksum (6 bytes in total), so the poll waits: nothing is emitted and
the buffer is untouched. -/
theorem C6_incomplete_frame_waits_witness :
    arducomDoWorkCore [] (-1) ⟨TransportStatus.HAS_DATA, [5, 131, 7]⟩
      = ⟨ARDUCOM_OK, ⟨TransportStatus.HAS_DATA, [5, 131, 7]⟩, 3, none⟩ := by
  have h := (C6_incomplete_frame_waits [] (-1) [5, 131, 7]).1 (by decide)
  simpa using h

/-! ### The slave stream transport (`ArducomTransportStream::doWork`, lines 100-122) -/

/-- The byte-reading loop of `ArducomTransportStream::doWork`: each incoming
byte is written at index `size` (`data[this->size] = stream->read()`; the
write indices are accumulated for inspection), `size` is incremented, and if
`size` has reached `ARDUCOM_BUFFERSIZE` the buffer is discarded (`status =
TOO_MUCH_DATA`, `size = 0`) and `ARDUCOM_OVERFLOW` is returned at once;
otherwise the status becomes `HAS_DATA`.  Returns
`(result, status, buffer, write indices)`. -/
def streamIngest (buffer : List Nat) (status : TransportStatus)
    (incoming : List Nat) (writes : List Nat) :
    Nat × TransportStatus × List Nat × List Nat :=
  match incoming with
  | [] => (ARDUCOM_OK, status, buffer, writes)
  | b :: rest =>
    let writes2 := writes ++ [buffer.length]
    let buffer2 := buffer ++ [b]
    if ARDUCOM_BUFFERSIZE ≤ buffer2.length then
      (ARDUCOM_OVERFLOW, TransportStatus.TOO_MUCH_DATA, [], writes2)
    else
      streamIngest buffer2 TransportStatus.HAS_DATA rest writes2

/-- `ArducomTransportStream::doWork` (lines 100-122): if the status is not
`HAS_DATA` the size is first reset to 0, then the available bytes are read. -/
def streamTransportDoWork (st : TransportState) (incoming : List Nat) :
    Nat × TransportState × List Nat :=
  let start := if st.status ≠ TransportStatus.HAS_DATA then [] else st.data
  let r := streamIngest start st.status incoming []
  (r.1, ⟨r.2.1, r.2.2.1⟩, r.2.2.2)

/-- A full slave poll over the stream transport: `Arducom::doWork`
(lines 226-229) first runs the transport and, if it reports anything other
than `ARDUCOM_OK`, returns that result without dispatching or emitting.
Returns the poll result together with the write indices used. -/
def arducomStreamPoll (registry : List ArducomCommandEntry) (lastDataSize : Int)
    (st : TransportState) (incoming : List Nat) : PollResult × List Nat :=
  let t := streamTransportDoWork st incoming
  if t.1 ≠ ARDUCOM_OK then
    (⟨t.1, t.2.1, lastDataSize, none⟩, t.2.2)
  else
    (arducomDoWorkCore registry lastDataSize t.2.1, t.2.2)

lemma streamIngest_spec (incoming : List Nat) :
    ∀ (buffer : List Nat) (status : TransportStatus) (writes : List Nat),
      buffer.length < 32 →
      ((∀ w ∈ (streamIngest buffer status incoming writes).2.2.2,
          w ∈ writes ∨ w < 32)
      ∧ (32 ≤ buffer.length + incoming.length →
          streamIngest buffer status incoming writes
            = (ARDUCOM_OVERFLOW, TransportStatus.TOO_MUCH_DATA, [],
                (streamIngest buffer status incoming writes).2.2.2))) := by
  induction incoming with
  | nil =>
    intro buffer status writes hlen
    refine ⟨fun w hw => Or.inl hw, fun hge => ?_⟩
    simp only [streamIngest, List.length_nil] at hge ⊢
    omega
  | cons b rest ih =>
    intro buffer status writes hlen
    by_cases hfull : ARDUCOM_BUFFERSIZE ≤ (buffer ++ [b]).length
    · constructor
      · intro w hw
        simp only [streamIngest, if_pos hfull] at hw
        rcases List.mem_append.mp hw with hw | hw
        · exact Or.inl hw
        · rw [List.mem_singleton] at hw
          subst hw
          exact Or.inr hlen
      · intro hge
        simp only [streamIngest, if_pos hfull]
    · have hlen2 : (buffer ++ [b]).length < 32 := by
        unfold ARDUCOM_BUFFERSIZE at hfull
        omega
      have ihr := ih (buffer ++ [b]) TransportStatus.HAS_DATA
        (writes ++ [buffer.length]) hlen2
      constructor
      · intro w hw
        simp only [streamIngest, if_neg hfull] at hw
        rcases ihr.1 w hw with hw2 | hw2
        · rcases List.mem_append.mp hw2 with hw3 | hw3
          · exact Or.inl hw3
          · rw [List.mem_singleton] at hw3
            subst hw3
            exact Or.inr hlen
        · exact Or.inr hw2
      · intro hge
        simp only [streamIngest, if_neg hfull]
        refine ihr.2 ?_
        simp only [List.length_append, List.length_singleton, List.length_cons] at hge ⊢
        omega

lemma streamTransportDoWork_start (st : TransportState) (incoming : List Nat) :
    streamTransportDoWork st incoming
      = ((streamIngest (if st.status = TransportStatus.HAS_DATA then st.data else [])
            st.status incoming []).1,
         ⟨(streamIngest (if st.status = TransportStatus.HAS_DATA then st.data else [])
            st.status incoming []).2.1,
          (streamIngest (if st.status = TransportStatus.HAS_DATA then st.data else [])
            st.status incoming []).2.2.1⟩,
         (streamIngest (if st.status = TransportStatus.HAS_DATA then st.data else [])
            st.status incoming []).2.2.2) := by
  simp only [streamTransportDoWork]
  by_cases hst : st.status = TransportStatus.HAS_DATA
  · rw [if_neg (not_not_intro hst), if_pos hst]
  · rw [if_pos hst, if_neg hst]

/-- C10: on the slave stream transport, whenever the buffered byte count
reaches `ARDUCOM_BUFFERSIZE` (32) during a poll, the whole buffered frame is
discarded (empty buffer, status `TOO_MUCH_DATA`), the transport returns
`ARDUCOM_OVERFLOW`, and the dispatcher returns that code without emitting any
reply frame (so the master can only time out; no `TOO_MUCH_DATA` error frame
is sent); moreover no received byte is ever written at an index ≥ 32. -/
theorem C10_stream_overflow (registry : List ArducomCommandEntry) (last : Int)
    (st : TransportState) (incoming : List Nat) (hstart : st.data.length < 32) :
    (∀ w ∈ (arducomStreamPoll registry last st incoming).2, w < 32)
    ∧ (32 ≤ (if st.status = TransportStatus.HAS_DATA then st.data.length else 0)
          + incoming.length →
        (arducomStreamPoll registry last st incoming).1
          = ⟨ARDUCOM_OVERFLOW, ⟨TransportStatus.TOO_MUCH_DATA, []⟩, last, none⟩) := by
  have hkey := streamTransportDoWork_start st incoming
  have hslen : (if st.status = TransportStatus.HAS_DATA then st.data else []).length
      < 32 := by
    split_ifs
    · exact hstart
    · simp
  have hspec := streamIngest_spec incoming
    (if st.status = TransportStatus.HAS_DATA then st.data else []) st.status [] hslen
  constructor
  · intro w hw
    have hw2 : w ∈ (streamIngest
        (if st.status = TransportStatus.HAS_DATA then st.data else [])
        st.status incoming []).2.2.2 := by
      simp only [arducomStreamPoll, hkey] at hw
      by_cases hret : ((streamIngest
          (if st.status = TransportStatus.HAS_DATA then st.data else [])
          st.status incoming []).1 ≠ ARDUCOM_OK)
      · rw [if_pos hret] at hw
        exact hw
      · rw [if_neg hret] at hw
        exact hw
    rcases hspec.1 w hw2 with h | h
    · cases h
    · exact h
  · intro hge
    have hge2 : 32 ≤ (if st.status = TransportStatus.HAS_DATA then st.data
        else []).length + incoming.length := by
      by_cases hst : st.status = TransportStatus.HAS_DATA
      · rw [if_pos hst] at hge ⊢
        exact hge
      · rw [if_neg hst] at hge ⊢
        simpa using hge
    have hov := hspec.2 hge2
    have h1 : (streamIngest
        (if st.status = TransportStatus.HAS_DATA then st.data else [])
        st.status incoming []).1 = ARDUCOM_OVERFLOW := by
      rw [hov]
    have h2 : (streamIngest
        (if st.status = TransportStatus.HAS_DATA then st.data else [])
        st.status incoming []).2.1 = TransportStatus.TOO_MUCH_DATA := by
      rw [hov]
    have h3 : (streamIngest
        (if st.status = TransportStatus.HAS_DATA then st.data else [])
        st.status incoming []).2.2.1 = [] := by
      rw [hov]
    simp only [arducomStreamPoll, hkey]
    rw [if_pos (by rw [h1]; decide)]
    simp only [h1, h2, h3]

/-- Witness for C10: a fresh transport receiving 32 bytes in one poll ends
with an empty `TOO_MUCH_DATA` buffer, result `ARDUCOM_OVERFLOW`, no emission,
and every write index below 32. -/
theorem C10_stream_overflow_witness :
    (∀ w ∈ (arducomStreamPoll [] (-1) ⟨TransportStatus.NO_DATA, []⟩
        (List.replicate 32 7)).2, w < 32)
    ∧ (arducomStreamPoll [] (-1) ⟨TransportStatus.NO_DATA, []⟩
        (List.replicate 32 7)).1
      = ⟨ARDUCOM_OVERFLOW, ⟨TransportStatus.TOO_MUCH_DATA, []⟩, -1, none⟩ := by
  have h := C10_stream_overflow [] (-1) ⟨TransportStatus.NO_DATA, []⟩
    (List.replicate 32 7) (by decide)
  exact ⟨h.1, h.2 (by decide)⟩

/-! ### Master receive (`ArducomMaster::receive`, lines 708-845) -/

lemma and128_of_le_63 (L : Nat) (h : L ≤ 63) : L &&& 128 = 0 := by
  have : ∀ x : Fin 64, x.val &&& 128 = 0 := by decide
  exact this ⟨L, by omega⟩

lemma add128_and128 (L : Nat) (h : L ≤ 63) : (L + 128) &&& 128 = 128 := by
  have : ∀ x : Fin 64, (x.val + 128) &&& 128 = 128 := by decide
  exact this ⟨L, by omega⟩

/-- Outcome of `ArducomMaster::receive`: either a C++ exception was thrown
(carrying the master's `lastError` at the throw site) or the function
returned — with a result code, the observed payload size, the error-info
byte, the final `lastError`, and the copied payload bytes. -/
inductive ReceiveOut where
  | thrown (lastError : Nat)
  | returned (code size errorInfo lastError : Nat) (payload : List Nat)
deriving DecidableEq, Repr

/-- The payload phase of `ArducomMaster::receive` (lines 820-844): the loop
`for (i = 0; i < expected && i < length; i++) destBuffer[i] = readByte()`
copies `min(expected, length)` bytes and leaves `*size` at that count (a
stream exhausted mid-loop raises the transport error `readByte` would); with
the checksum flag, the checksum is then recomputed over exactly the copied
bytes and compared with the transmitted checksum byte, returning
`CHECKSUM_ERROR` with the recomputed value as error info on mismatch.  On
the `OK` paths the error-info out-parameter holds the 0 that `execute`
stores into it before every receive attempt (lines 502-503). -/
def masterReceivePayload (resultCode code checkByte expected : Nat)
    (checksum : Bool) (stream : List Nat) : ReceiveOut :=
  let length := code &&& 63
  let count := min expected length
  if stream.length < count then ReceiveOut.thrown ARDUCOM_TRANSPORT_ERROR_CODE
  else
    let payload := stream.take count
    if checksum then
      let ckbyte := masterCalculateChecksum resultCode code payload
      if ckbyte ≠ checkByte then
        ReceiveOut.returned ARDUCOM_CHECKSUM_ERROR count ckbyte
          ARDUCOM_CHECKSUM_ERROR payload
      else ReceiveOut.returned ARDUCOM_OK count 0 ARDUCOM_OK payload
    else ReceiveOut.returned ARDUCOM_OK count 0 ARDUCOM_OK payload

/-- `ArducomMaster::receive` (lines 708-845) over the reply byte stream.
Order of the source's checks: no command sent yet (`lastCommand > 127`);
a `0xFF` lead byte reads the error kind and info bytes and returns the kind;
a 0 lead byte raises `INVALID_REPLY`; a lead byte other than
`lastCommand | 0x80` raises `INVALID_RESPONSE`; the code byte's bit 7 must
match the caller's checksum expectation (the "Checksum flag mismatch" throw
happens while `lastError` is still `ARDUCOM_OK`); a payload length above
`ARDUCOM_BUFFERSIZE` raises `PAYLOAD_TOO_LONG`; then the optional checksum
byte is read and the payload phase runs.  `readByte` on an exhausted stream
raises the transport error. -/
def masterReceive (lastCommand expected : Nat) (useChecksum : Bool)
    (stream : List Nat) : ReceiveOut :=
  if lastCommand > 127 then ReceiveOut.thrown ARDUCOM_NO_COMMAND
  else
    match stream with
    | [] => ReceiveOut.thrown ARDUCOM_TRANSPORT_ERROR_CODE
    | resultCode :: rest =>
      if resultCode = ARDUCOM_ERROR_CODE then
        match rest with
        | errKind :: info :: _ => ReceiveOut.returned errKind 0 info errKind []
        | _ => ReceiveOut.thrown ARDUCOM_TRANSPORT_ERROR_CODE
      else if resultCode = 0 then ReceiveOut.thrown ARDUCOM_INVALID_REPLY
      else if resultCode ≠ lastCommand ||| 128 then
        ReceiveOut.thrown ARDUCOM_INVALID_RESPONSE
      else
        match rest with
        | [] => ReceiveOut.thrown ARDUCOM_TRANSPORT_ERROR_CODE
        | code :: rest2 =>
          let checksum : Bool := code &&& 128 == 128
          if checksum ≠ useChecksum then ReceiveOut.thrown ARDUCOM_OK
          else if code &&& 63 > ARDUCOM_BUFFERSIZE then
            ReceiveOut.thrown ARDUCOM_PAYLOAD_TOO_LONG
          else if checksum then
            match rest2 with
            | [] => ReceiveOut.thrown ARDUCOM_TRANSPORT_ERROR_CODE
            | cb :: rest3 =>
              masterReceivePayload resultCode code cb expected checksum rest3
          else masterReceivePayload resultCode code 0 expected checksum rest2

/-! ### C8 -/

/-- C8: for every successful reply advertising payload length `L` when the
caller expects `E` bytes, `receive` copies exactly `min(E, L)` payload bytes
(`payload.take (min E L)`) and reports that as the observed size; with a
checksum present it recomputes the checksum over only those copied bytes and
compares it with the transmitted checksum byte, returning `CHECKSUM_ERROR`
with the recomputed value in the info byte on mismatch. -/
theorem C8_receive_truncates (cmd E : Nat) (hcmd : cmd ≤ 126) (ck : Bool)
    (payload : List Nat) (hL : payload.length ≤ 32) (ckByte : Nat)
    (junk : List Nat) :
    masterReceive cmd E ck
        ([cmd ||| 128, payload.length ||| (if ck then 128 else 0)]
          ++ (if ck then [ckByte] else []) ++ payload ++ junk)
      = (if ck then
          (if masterCalculateChecksum (cmd ||| 128) (payload.length ||| 128)
                (payload.take (min E payload.length)) ≠ ckByte then
            ReceiveOut.returned ARDUCOM_CHECKSUM_ERROR (min E payload.length)
              (masterCalculateChecksum (cmd ||| 128) (payload.length ||| 128)
                (payload.take (min E payload.length)))
              ARDUCOM_CHECKSUM_ERROR (payload.take (min E payload.length))
          else ReceiveOut.returned ARDUCOM_OK (min E payload.length) 0 ARDUCOM_OK
            (payload.take (min E payload.length)))
        else ReceiveOut.returned ARDUCOM_OK (min E payload.length) 0 ARDUCOM_OK
          (payload.take (min E payload.length))) := by
  have hL63 : payload.length ≤ 63 := by omega
  have hc : cmd ||| 128 = cmd + 128 := lor128_of_le_126 _ hcmd
  have htake : ∀ n, n ≤ payload.length → (payload ++ junk).take n = payload.take n :=
    fun n hn => List.take_append_of_le_length hn
  cases ck
  case false =>
    simp only [Bool.false_eq_true, if_false, masterReceive, List.cons_append,
      List.nil_append]
    rw [if_neg (by omega : ¬ cmd > 127)]
    rw [if_neg (by rw [hc]; unfold ARDUCOM_ERROR_CODE; omega)]
    rw [if_neg (by rw [hc]; omega)]
    rw [if_neg (not_not_intro rfl)]
    have hflag : ((payload.length ||| 0) &&& 128 == 128) = false := by
      rw [Nat.or_zero, and128_of_le_63 _ hL63]
      rfl
    rw [if_neg (by rw [hflag]; simp)]
    rw [if_neg (by
      rw [Nat.or_zero, and63_of_le_63 _ hL63]
      unfold ARDUCOM_BUFFERSIZE
      omega)]
    rw [if_neg (by rw [hflag]; simp)]
    simp only [masterReceivePayload]
    rw [if_neg (by
      rw [Nat.or_zero, and63_of_le_63 _ hL63]
      simp only [List.length_append]
      omega)]
    rw [if_neg (by rw [hflag]; simp)]
    simp [Nat.or_zero, and63_of_le_63 _ hL63, htake _ (Nat.min_le_right _ _)]
  case true =>
    have hcode : payload.length ||| 128 = payload.length + 128 :=
      lor128_of_le_63 _ hL63
    simp only [reduceIte]
    simp only [masterReceive]
    rw [if_neg (by omega : ¬ cmd > 127)]
    simp only [List.cons_append, List.nil_append]
    rw [if_neg (by rw [hc]; unfold ARDUCOM_ERROR_CODE; omega)]
    rw [if_neg (by rw [hc]; omega)]
    rw [if_neg (not_not_intro rfl)]
    have hflag : ((payload.length ||| 128) &&& 128 == 128) = true := by
      rw [hcode, add128_and128 _ hL63]
      rfl
    simp only [hflag]
    rw [if_neg (by simp)]
    rw [if_neg (by
      rw [hcode, add128_and63 _ hL63]
      unfold ARDUCOM_BUFFERSIZE
      omega)]
    rw [if_pos trivial]
    unfold masterReceivePayload
    rw [hcode, add128_and63 _ hL63]
    rw [if_neg (by
      simp only [List.length_append]
      omega)]
    rw [htake _ (Nat.min_le_right _ _)]
    simp [hcode]

/-- Witness for C8: reply to command 2 advertising 3 payload bytes while only
2 are expected, with checksum: exactly 2 bytes are copied, the checksum is
recomputed over those 2 bytes only, and (the transmitted checksum having been
computed over all 3) `CHECKSUM_ERROR` is returned with the recomputed value. -/
theorem C8_receive_truncates_witness :
    masterReceive 2 2 true
        ([2 ||| 128, 3 ||| 128]
          ++ [masterCalculateChecksum (2 ||| 128) (3 ||| 128) [10, 20, 30]]
          ++ [10, 20, 30] ++ [])
      = ReceiveOut.returned ARDUCOM_CHECKSUM_ERROR 2
          (masterCalculateChecksum (2 ||| 128) (3 ||| 128) [10, 20])
          ARDUCOM_CHECKSUM_ERROR [10, 20] := by
  have h := C8_receive_truncates 2 2 (by decide) true [10, 20, 30] (by decide)
    (masterCalculateChecksum (2 ||| 128) (3 ||| 128) [10, 20, 30]) []
  simpa using h

/-! ### Master execute retry loop (`ArducomMaster::execute`, lines 459-596) -/

/-- One scripted slave reaction to a receive attempt by the master: a
successful reply carrying a payload, an error reply frame `FF code info`, or
a transport timeout (which `ArducomMaster::receive` turns into an
`ARDUCOM_NO_DATA` result with `lastError = ARDUCOM_TIMEOUT`). -/
inductive SlaveReply where
  | okReply (payload : List Nat)
  | errReply (code info : Nat)
  | timeout
deriving DecidableEq, Repr

/-- The result code `ArducomMaster::receive` hands back to the retry loop for
a scripted reaction (lines 716-767). -/
def receiveResultCode : SlaveReply → Nat
  | SlaveReply.okReply _ => ARDUCOM_OK
  | SlaveReply.errReply code _ => code
  | SlaveReply.timeout => ARDUCOM_NO_DATA

/-- The master's `lastError` after that receive (`lastError = resultCode` for
an error frame, `ARDUCOM_TIMEOUT` for a timeout). -/
def receiveLastError : SlaveReply → Nat
  | SlaveReply.okReply _ => ARDUCOM_OK
  | SlaveReply.errReply code _ => code
  | SlaveReply.timeout => ARDUCOM_TIMEOUT_CODE

/-- Outcome of one `ArducomMaster::execute` call: the payload of a successful
reply, or the raised exception together with the master's final `lastError`. -/
inductive ExecOutcome where
  | success (payload : List Nat)
  | raised (lastError : Nat)
deriving DecidableEq, Repr

/-- The retry loop of `ArducomMaster::execute` (lines 494-583): each
iteration sleeps and calls `receive` once; `ARDUCOM_OK` breaks out with the
payload; `ARDUCOM_NO_DATA` with `retries > 0` decrements the budget and
continues; everything else — including `NO_DATA` with no retries left —
throws.  An exhausted script models a failing `transport->request`, which
raises the transport error. -/
def executeReceiveLoop (script : List SlaveReply) (retries : Nat) : ExecOutcome :=
  match script with
  | [] => ExecOutcome.raised ARDUCOM_TRANSPORT_ERROR_CODE
  | reply :: rest =>
    if receiveResultCode reply = ARDUCOM_OK then
      ExecOutcome.success (match reply with
        | SlaveReply.okReply p => p
        | _ => [])
    else if receiveResultCode reply = ARDUCOM_NO_DATA ∧ retries > 0 then
      executeReceiveLoop rest (retries - 1)
    else
      ExecOutcome.raised (receiveLastError reply)

/-- `ArducomMaster::execute`: `send` is called exactly once (line 490),
before the retry loop, which only repeats the receive step.  The first
component counts the `sendBytes` calls made for the request frame. -/
def executeModel (script : List SlaveReply) (retries : Nat) : Nat × ExecOutcome :=
  (1, executeReceiveLoop script retries)

lemma executeReceiveLoop_no_data (payload : List Nat) (rest : List SlaveReply) :
    ∀ (k retries : Nat),
      (k ≤ retries →
        executeReceiveLoop (List.replicate k (SlaveReply.errReply ARDUCOM_NO_DATA 0)
            ++ SlaveReply.okReply payload :: rest) retries
          = ExecOutcome.success payload)
      ∧ (retries < k →
        executeReceiveLoop (List.replicate k (SlaveReply.errReply ARDUCOM_NO_DATA 0)
            ++ SlaveReply.okReply payload :: rest) retries
          = ExecOutcome.raised ARDUCOM_NO_DATA) := by
  intro k
  induction k with
  | zero =>
    intro retries
    refine ⟨fun _ => ?_, fun h => absurd h (by omega)⟩
    simp [executeReceiveLoop, receiveResultCode]
  | succ k ih =>
    intro retries
    constructor
    · intro hk
      simp only [List.replicate_succ, List.cons_append, executeReceiveLoop]
      rw [if_neg (by decide)]
      rw [if_pos ⟨rfl, by omega⟩]
      exact (ih (retries - 1)).1 (by omega)
    · intro hk
      simp only [List.replicate_succ, List.cons_append, executeReceiveLoop]
      rw [if_neg (by decide)]
      by_cases hr : retries > 0
      · rw [if_pos ⟨rfl, hr⟩]
        exact (ih (retries - 1)).2 (by omega)
      · rw [if_neg (by
          rintro ⟨-, hx⟩
          omega)]
        rfl

/-! ### C3 -/

/-- C3: `execute` sends the request frame exactly once per call and retries
only the receive step, and only on `NO_DATA`: against a slave that answers
`NO_DATA` exactly `k` times and then succeeds, `execute` with `retries ≥ k`
returns the payload, while `retries < k` raises with the master's last error
being `NO_DATA` (128); any receive result other than `OK` or `NO_DATA`
surfaces immediately — independent of the remaining retry budget and of the
rest of the script. -/
theorem C3_execute_retry_policy (k retries : Nat) (payload : List Nat)
    (rest : List SlaveReply) :
    ((executeModel (List.replicate k (SlaveReply.errReply ARDUCOM_NO_DATA 0)
        ++ SlaveReply.okReply payload :: rest) retries).1 = 1)
    ∧ (k ≤ retries →
      executeModel (List.replicate k (SlaveReply.errReply ARDUCOM_NO_DATA 0)
          ++ SlaveReply.okReply payload :: rest) retries
        = (1, ExecOutcome.success payload))
    ∧ (retries < k →
      executeModel (List.replicate k (SlaveReply.errReply ARDUCOM_NO_DATA 0)
          ++ SlaveReply.okReply payload :: rest) retries
        = (1, ExecOutcome.raised ARDUCOM_NO_DATA))
    ∧ (∀ (e i : Nat), e ≠ ARDUCOM_OK → e ≠ ARDUCOM_NO_DATA →
      ∀ (s : List SlaveReply) (r : Nat),
        executeModel (SlaveReply.errReply e i :: s) r
          = (1, ExecOutcome.raised e)) := by
  refine ⟨rfl, ?_, ?_, ?_⟩
  · intro hk
    unfold executeModel
    rw [(executeReceiveLoop_no_data payload rest k retries).1 hk]
  · intro hk
    unfold executeModel
    rw [(executeReceiveLoop_no_data payload rest k retries).2 hk]
  · intro e i he0 he128 s r
    unfold executeModel
    simp only [executeReceiveLoop]
    rw [if_neg (by unfold receiveResultCode; exact he0)]
    rw [if_neg (by
      rintro ⟨hx, -⟩
      exact he128 hx)]
    rfl

/-- Witness for C3: the spec's scenario F — the slave replies `NO_DATA` twice
and then succeeds with an empty payload; with `retries = 2` the call sends
once and returns size 0 with no error. -/
theorem C3_execute_retry_policy_witness :
    executeModel (List.replicate 2 (SlaveReply.errReply ARDUCOM_NO_DATA 0)
        ++ SlaveReply.okReply [] :: []) 2
      = (1, ExecOutcome.success []) :=
  (C3_execute_retry_policy 2 2 [] []).2.1 (by decide)

end Arducom
